import Mathlib

/-!
Verification development for the linkedin-bot repository.

The Python sources are shallowly embedded as executable Lean definitions:

* `config.py`        → `Config`, `Config.ofEnv`, `Config.getattr`, `Config.validate_config`
* `content_generator.py` → `frontend_topics`, `post_templates`, the six prompt builders,
  `generate_post_run` / `generate_post`, `generate_fallback_post`, `add_hashtags`
* `linkedin_api.py`  → `HttpResult`, `get_profile_info`, `get_profile_id`,
  `create_text_post`, `test_connection`
* `linkedin_bot.py`  → `LinkedInBot.init`, `create_and_post`, `post_now`,
  `start_scheduler`, `get_next_post_time`

External effects (HTTP responses, the generative-API completion, randomness from
`random.choice`, the wall clock) are passed in explicitly: HTTP calls as `HttpResult`
values or oracle functions, each `random.choice` as a natural-number index reduced
modulo the list length, and the scheduler clock as an abstract `next_of` function.
Python exceptions are modelled with `Except PyErr`; Python truthiness is modelled
explicitly for `Option String` and for JSON values.
-/

/-- Substring containment: `pat` occurs verbatim inside `s`, as infix of char lists. -/
def strContains (s pat : String) : Prop := pat.data <:+: s.data

instance (s pat : String) : Decidable (strContains s pat) :=
  inferInstanceAs (Decidable (pat.data <:+: s.data))

theorem strContains_append_left (s t pat : String) (h : strContains s pat) :
    strContains (s ++ t) pat := by
  unfold strContains at *
  refine h.trans ⟨[], t.data, ?_⟩
  simp [String.data_append]

theorem strContains_append_right (s t pat : String) (h : strContains t pat) :
    strContains (s ++ t) pat := by
  unfold strContains at *
  exact h.trans ⟨s.data, [], by simp [String.data_append]⟩

theorem strContains_self (s : String) : strContains s s :=
  ⟨[], [], by simp⟩

theorem strContains_middle (a pat b : String) : strContains (a ++ pat ++ b) pat := by
  unfold strContains
  exact ⟨a.data, b.data, by simp [String.data_append]⟩

/-- Model of a parsed JSON value (the result of `response.json()`). -/
inductive Json where
  | null
  | bool (b : Bool)
  | str (s : String)
  | num (n : Int)
  | arr (elts : List Json)
  | obj (fields : List (String × Json))

/-- Python truthiness of a JSON value (`if result:` in `create_and_post`,
`bool(profile.get('sub'))` in `test_connection`). An empty dict, empty list,
empty string, `0`, `False` and `None` are falsy. -/
def Json.truthy : Json → Bool
  | .null => false
  | .bool b => b
  | .str s => !s.isEmpty
  | .num n => n != 0
  | .arr l => !l.isEmpty
  | .obj f => !f.isEmpty

/-- Python exceptions that the embedded code can raise. -/
inductive PyErr where
  | attributeError (attr : String)
  | valueError (msg : String)
  | typeError (msg : String)
  | requestException (msg : String)
deriving DecidableEq

/-- Python `dict.get(key)`: `Option Json` on a JSON object; on any non-dict value the
attribute access `.get` raises `AttributeError`. -/
def Json.pyGet (j : Json) (k : String) : Except PyErr (Option Json) :=
  match j with
  | .obj fields => .ok (fields.lookup k)
  | _ => .error (.attributeError "get")

/-- Truthiness of `Option Json` (a Python value that may be `None`). -/
def optJsonTruthy : Option Json → Bool
  | none => false
  | some j => j.truthy

/-- Truthiness of an `Optional[str]` Python value: `None` and `""` are falsy. -/
def optStrTruthy : Option String → Bool
  | none => false
  | some s => !s.isEmpty

/-- Result of `random.choice(l)` when the underlying RNG picks raw index `i`:
the element at `i % len(l)`. Our uses are all on non-empty lists, matching
`random.choice`, which raises on an empty sequence. -/
def pyChoice (l : List String) (i : Nat) : String := l.getD (i % l.length) ""

/-! ## `config.py`: the `Config` class -/

/-- Class attributes of `Config` (config.py lines 42-59). `Option String` fields
mirror `os.getenv(key)` (which yields `None` when the variable is absent); plain
`String` fields have hard-coded defaults in the source. -/
structure Config where
  LINKEDIN_CLIENT_ID : Option String
  LINKEDIN_CLIENT_SECRET : Option String
  LINKEDIN_REDIRECT_URI : String
  LINKEDIN_ACCESS_TOKEN : Option String
  GEMINI_API_KEY : Option String
  POST_TIME : String
  TIMEZONE : String
deriving DecidableEq

/-- Building `Config` from an environment (config.py lines 44-54). -/
def Config.ofEnv (env : String → Option String) : Config where
  LINKEDIN_CLIENT_ID := env "LINKEDIN_CLIENT_ID"
  LINKEDIN_CLIENT_SECRET := env "LINKEDIN_CLIENT_SECRET"
  LINKEDIN_REDIRECT_URI := (env "LINKEDIN_REDIRECT_URI").getD "http://localhost:8080/callback"
  LINKEDIN_ACCESS_TOKEN := env "LINKEDIN_ACCESS_TOKEN"
  GEMINI_API_KEY := env "GEMINI_API_KEY"
  POST_TIME := (env "POST_TIME").getD "09:00"
  TIMEZONE := (env "TIMEZONE").getD "UTC"

/-- Python `getattr(Config, name)`: `none` models the `AttributeError` raised for a
name that is not a class attribute of `Config`. The constant API URLs
(config.py lines 57-59) are plain strings, returned as present attributes. -/
def Config.getattr (c : Config) : String → Option (Option String)
  | "LINKEDIN_CLIENT_ID" => some c.LINKEDIN_CLIENT_ID
  | "LINKEDIN_CLIENT_SECRET" => some c.LINKEDIN_CLIENT_SECRET
  | "LINKEDIN_REDIRECT_URI" => some (some c.LINKEDIN_REDIRECT_URI)
  | "LINKEDIN_ACCESS_TOKEN" => some c.LINKEDIN_ACCESS_TOKEN
  | "GEMINI_API_KEY" => some c.GEMINI_API_KEY
  | "POST_TIME" => some (some c.POST_TIME)
  | "TIMEZONE" => some (some c.TIMEZONE)
  | "LINKEDIN_API_BASE" => some (some "https://api.linkedin.com/v2")
  | "LINKEDIN_AUTH_URL" => some (some "https://www.linkedin.com/oauth/v2/authorization")
  | "LINKEDIN_TOKEN_URL" => some (some "https://www.linkedin.com/oauth/v2/accessToken")
  | _ => none

/-- The `required_vars` list of `Config.validate_config` (config.py lines 64-69). -/
def Config.required_vars : List String :=
  ["LINKEDIN_CLIENT_ID", "LINKEDIN_CLIENT_SECRET", "LINKEDIN_ACCESS_TOKEN", "GEMINI_API_KEY"]

/-- `Config.validate_config` (config.py lines 61-79): collect the required variables
whose `getattr` value is falsy, then raise `ValueError` naming them, joined with
", ", if any; otherwise return `True`. The fold also models the (unreachable for
`required_vars`) `AttributeError` of `getattr` on a missing attribute. -/
def Config.validate_config (c : Config) : Except PyErr Bool :=
  match Config.required_vars.foldl
      (fun acc v =>
        match acc with
        | .error e => .error e
        | .ok ms =>
          match c.getattr v with
          | none => .error (PyErr.attributeError v)
          | some val => .ok (if optStrTruthy val then ms else ms ++ [v]))
      (Except.ok ([] : List String)) with
  | .error e => .error e
  | .ok [] => .ok true
  | .ok missing =>
    .error (.valueError ("Missing required environment variables: " ++
      String.intercalate ", " missing))

/-! ## Object construction (`linkedin_api.py`, `content_generator.py`, `linkedin_bot.py`) -/

/-- Instance state of `LinkedInAPI` (linkedin_api.py lines 9-16); the headers are a
pure function of the token and carried implicitly. -/
structure LinkedInAPI where
  access_token : Option String
deriving DecidableEq

/-- `LinkedInAPI.__init__` (linkedin_api.py lines 9-16): reads
`Config.LINKEDIN_ACCESS_TOKEN`, an attribute that exists, so construction succeeds. -/
def LinkedInAPI.init (c : Config) : Except PyErr LinkedInAPI :=
  match c.getattr "LINKEDIN_ACCESS_TOKEN" with
  | none => .error (.attributeError "LINKEDIN_ACCESS_TOKEN")
  | some tok => .ok ⟨tok⟩

/-- Instance state of `ContentGenerator` (content_generator.py lines 10-33); the
topic and template lists are constants, embedded below as `frontend_topics` and
`post_templates`. -/
structure ContentGenerator where
  api_key : Option String
deriving DecidableEq

/-- `ContentGenerator.__init__` (content_generator.py lines 10-12): reads
`Config.OPENAI_API_KEY`. `Config` (config.py) defines no such attribute — it
defines `GEMINI_API_KEY` — so this access raises `AttributeError`. -/
def ContentGenerator.init (c : Config) : Except PyErr ContentGenerator :=
  match c.getattr "OPENAI_API_KEY" with
  | none => .error (.attributeError "OPENAI_API_KEY")
  | some key => .ok ⟨key⟩

/-- Instance state of `LinkedInBot` (linkedin_bot.py lines 24-35). -/
structure LinkedInBot where
  linkedin_api : LinkedInAPI
  content_generator : ContentGenerator
  is_running : Bool
deriving DecidableEq

/-- `LinkedInBot.__init__` (linkedin_bot.py lines 24-35): builds `LinkedInAPI`, then
`ContentGenerator`, then calls `Config.validate_config` inside a
`try/except ValueError` that logs and re-raises, so any exception propagates. -/
def LinkedInBot.init (c : Config) : Except PyErr LinkedInBot :=
  match LinkedInAPI.init c with
  | .error e => .error e
  | .ok api =>
    match ContentGenerator.init c with
    | .error e => .error e
    | .ok gen =>
      match c.validate_config with
      | .error e => .error e
      | .ok _ => .ok ⟨api, gen, false⟩

/-! ## `content_generator.py`: topics, templates, prompts and post generation -/

/-- `self.frontend_topics` (content_generator.py lines 15-23). -/
def frontend_topics : List String :=
  ["React.js", "Vue.js", "Angular", "Next.js", "Nuxt.js", "Svelte", "Solid.js",
   "TypeScript", "JavaScript ES6+", "CSS Grid", "Flexbox", "Tailwind CSS",
   "Web Components", "Progressive Web Apps", "WebAssembly", "WebRTC",
   "GraphQL", "REST APIs", "Micro-frontends", "Server-Side Rendering",
   "Static Site Generation", "JAMstack", "Webpack", "Vite", "Parcel",
   "Testing", "Jest", "Cypress", "Playwright", "Accessibility", "Performance",
   "Bundle Optimization", "Code Splitting", "Lazy Loading", "Caching Strategies"]

/-- `self.post_templates` (content_generator.py lines 26-33). -/
def post_templates : List String :=
  ["tip_template", "tutorial_template", "trend_analysis_template",
   "comparison_template", "best_practice_template", "troubleshooting_template"]

/-- The f-string of `_generate_tip_post` (content_generator.py lines 61-69),
with the `{topic}` hole made explicit. -/
def tip_prompt (topic : String) : String :=
  "\n        Create a LinkedIn post about a useful tip for " ++ topic ++
  " developers.\n        The post should be:\n        - Engaging and professional\n        - Include a practical tip or insight\n        - Be 2-3 sentences long\n        - Include relevant hashtags\n        - Start with \"💡 Frontend Tip:\" or similar\n        "

/-- The f-string of `_generate_tutorial_post` (content_generator.py lines 82-90). -/
def tutorial_prompt (topic : String) : String :=
  "\n        Create a LinkedIn post that shares a quick tutorial or how-to about " ++ topic ++
  ".\n        The post should be:\n        - Educational and actionable\n        - Include step-by-step guidance or key concepts\n        - Be 3-4 sentences long\n        - Include relevant hashtags\n        - Start with \"🚀 Quick Tutorial:\" or similar\n        "

/-- The f-string of `_generate_trend_post` (content_generator.py lines 103-111). -/
def trend_prompt (topic : String) : String :=
  "\n        Create a LinkedIn post analyzing current trends or future outlook for " ++ topic ++
  ".\n        The post should be:\n        - Insightful and forward-thinking\n        - Include industry perspective\n        - Be 3-4 sentences long\n        - Include relevant hashtags\n        - Start with \"📈 Trend Watch:\" or similar\n        "

/-- The f-string of `_generate_comparison_post` (content_generator.py lines 127-135),
with both the `{topic}` and `{compare_topic}` holes explicit. -/
def comparison_prompt (topic compare_topic : String) : String :=
  "\n        Create a LinkedIn post comparing " ++ topic ++ " with " ++ compare_topic ++
  ".\n        The post should be:\n        - Balanced and informative\n        - Highlight key differences or use cases\n        - Be 3-4 sentences long\n        - Include relevant hashtags\n        - Start with \"⚖️ Comparison:\" or similar\n        "

/-- The f-string of `_generate_best_practice_post` (content_generator.py lines 148-156). -/
def best_practice_prompt (topic : String) : String :=
  "\n        Create a LinkedIn post sharing best practices for " ++ topic ++
  ".\n        The post should be:\n        - Professional and authoritative\n        - Include practical advice\n        - Be 3-4 sentences long\n        - Include relevant hashtags\n        - Start with \"✨ Best Practice:\" or similar\n        "

/-- The f-string of `_generate_troubleshooting_post` (content_generator.py lines 169-177). -/
def troubleshooting_prompt (topic : String) : String :=
  "\n        Create a LinkedIn post about a common issue developers face with " ++ topic ++
  " and how to solve it.\n        The post should be:\n        - Problem-solving focused\n        - Include a solution or workaround\n        - Be 3-4 sentences long\n        - Include relevant hashtags\n        - Start with \"🔧 Troubleshooting:\" or similar\n        "

/-- One call to the external generative API: the oracle `api` maps the prompt to
`response.choices[0].message.content`, or to the exception the call raised. The
returned text is stripped (`.strip()`), and the prompt that was sent is reported
alongside, so that theorems can count external calls. Shared body of the six
`_generate_*_post` methods. -/
def api_call (api : String → Except PyErr String) (prompt : String) :
    Except PyErr String × List String :=
  ((api prompt).map String.trim, [prompt])

/-- `_generate_tip_post` (content_generator.py lines 59-78). -/
def generate_tip_post (api : String → Except PyErr String) (topic : String) :
    Except PyErr String × List String :=
  api_call api (tip_prompt topic)

/-- `_generate_tutorial_post` (content_generator.py lines 80-99). -/
def generate_tutorial_post (api : String → Except PyErr String) (topic : String) :
    Except PyErr String × List String :=
  api_call api (tutorial_prompt topic)

/-- `_generate_trend_post` (content_generator.py lines 101-120). -/
def generate_trend_post (api : String → Except PyErr String) (topic : String) :
    Except PyErr String × List String :=
  api_call api (trend_prompt topic)

/-- `_generate_comparison_post` (content_generator.py lines 122-144): picks a second
topic uniformly from `frontend_topics` with the given topic filtered out
(`random.choice` index `cIdx`), then calls the API with the comparison prompt. -/
def generate_comparison_post (api : String → Except PyErr String) (topic : String)
    (cIdx : Nat) : Except PyErr String × List String :=
  let related_topics := frontend_topics.filter (fun t => t != topic)
  let compare_topic := pyChoice related_topics cIdx
  api_call api (comparison_prompt topic compare_topic)

/-- `_generate_best_practice_post` (content_generator.py lines 146-165). -/
def generate_best_practice_post (api : String → Except PyErr String) (topic : String) :
    Except PyErr String × List String :=
  api_call api (best_practice_prompt topic)

/-- `_generate_troubleshooting_post` (content_generator.py lines 167-186). -/
def generate_troubleshooting_post (api : String → Except PyErr String) (topic : String) :
    Except PyErr String × List String :=
  api_call api (troubleshooting_prompt topic)

/-- The `tips` list of `_generate_fallback_post` (content_generator.py lines 190-196). -/
def fallback_tips (topic : String) : List String :=
  ["💡 " ++ topic ++ " tip: Always keep your dependencies updated for better security and performance!",
   "🚀 Working with " ++ topic ++ "? Remember to optimize your bundle size for faster load times.",
   "✨ Best practice for " ++ topic ++ ": Write clean, readable code that your future self will thank you for!",
   "📈 " ++ topic ++ " is evolving rapidly - stay updated with the latest features and best practices!",
   "🔧 Common " ++ topic ++ " issue? Check your console for errors and use debugging tools effectively."]

/-- Python `s.replace(c, '')` for a one-character pattern `c` and empty replacement:
it deletes every occurrence of that character and changes nothing else. -/
def py_replace_del (s : String) (c : Char) : String :=
  ⟨s.data.filter (fun a => a != c)⟩

/-- `topic.replace('.', '').replace(' ', '')` from the fallback hashtag
(content_generator.py line 198): every dot and every space removed, case kept. -/
def topic_hashtag_stem (topic : String) : String :=
  py_replace_del (py_replace_del topic '.') ' '

/-- `_generate_fallback_post` (content_generator.py lines 188-198): one of the five
canned lines (`random.choice` index `fIdx`) plus the hashtag suffix built by string
concatenation. Takes no API oracle: it performs no external generation call. -/
def generate_fallback_post (topic : String) (fIdx : Nat) : String :=
  pyChoice (fallback_tips topic) fIdx ++
    ("\n\n#FrontendDevelopment #" ++ topic_hashtag_stem topic ++ " #WebDevelopment #TechTips")

/-- `generate_post` (content_generator.py lines 35-57) together with the list of
prompts sent to the external API. `tIdx` drives `random.choice(self.frontend_topics)`
(taken when the argument is `None` or any falsy string), `kIdx` drives
`random.choice(self.post_templates)`, `cIdx` the comparison topic choice and `fIdx`
the fallback tip choice. The `try` covers the whole `if/elif` dispatch: an API
exception selects the fallback; a template matching no branch would fall off the
chain and return Python `None` (first component `none`) — unreachable, since the
chosen template is always one of the six. -/
def generate_post_run (api : String → Except PyErr String) (tIdx kIdx cIdx fIdx : Nat)
    (topicArg : Option String) : Option String × List String :=
  let topic := match topicArg with
    | none => pyChoice frontend_topics tIdx
    | some t => if t.isEmpty then pyChoice frontend_topics tIdx else t
  let template := pyChoice post_templates kIdx
  let attempt : Option (Except PyErr String × List String) :=
    if template = "tip_template" then some (generate_tip_post api topic)
    else if template = "tutorial_template" then some (generate_tutorial_post api topic)
    else if template = "trend_analysis_template" then some (generate_trend_post api topic)
    else if template = "comparison_template" then some (generate_comparison_post api topic cIdx)
    else if template = "best_practice_template" then some (generate_best_practice_post api topic)
    else if template = "troubleshooting_template" then some (generate_troubleshooting_post api topic)
    else none
  match attempt with
  | none => (none, [])
  | some (.ok s, tr) => (some s, tr)
  | some (.error _, tr) => (some (generate_fallback_post topic fIdx), tr)

/-- The value returned by `generate_post`, dropping the call trace. -/
def generate_post (api : String → Except PyErr String) (tIdx kIdx cIdx fIdx : Nat)
    (topicArg : Option String) : Option String :=
  (generate_post_run api tIdx kIdx cIdx fIdx topicArg).1

/-- The `hashtags` list of `add_hashtags` (content_generator.py lines 207-214). -/
def hashtags_list : List String :=
  ["#FrontendDevelopment", "#WebDevelopment", "#JavaScript",
   "#TechTips", "#Programming", "#SoftwareDevelopment"]

/-- `add_hashtags` (content_generator.py lines 204-216): if no "#" character occurs
in the post (Python `"#" not in post`, a one-character substring test, i.e. char
membership), append the first three hashtags joined by single spaces after a blank
line; otherwise return the post unchanged. -/
def add_hashtags (post : String) : String :=
  if '#' ∈ post.data then post
  else post ++ "\n\n" ++ String.intercalate " " (hashtags_list.take 3)

/-! ## `linkedin_api.py`: profile lookup, posting, connection test -/

/-- Outcome of one HTTP request: either the call itself raised a
`requests.exceptions.RequestException` (network failure), or a response arrived with
a status code and a JSON parse result for its body (`none` when the body is empty or
malformed, in which case `response.json()` raises `requests.exceptions.JSONDecodeError`,
itself a `RequestException`). -/
inductive HttpResult where
  | exc (msg : String)
  | resp (status : Nat) (body : Option Json)

/-- A network request issued by the client, for call traces. -/
inductive NetCall where
  | get (url : String)
  | post (url : String) (payload : Json)

/-- The userinfo endpoint hit by `get_profile_info` (linkedin_api.py line 23). -/
def userinfo_url : String := "https://api.linkedin.com/v2/userinfo"

/-- The create-post endpoint `{base_url}/ugcPosts` (linkedin_api.py line 63). -/
def ugc_posts_url : String := "https://api.linkedin.com/v2/ugcPosts"

/-- `response.raise_for_status()` raises `HTTPError` exactly for status codes in
[400, 600). -/
def raise_for_status_fails (status : Nat) : Bool :=
  decide (400 ≤ status) && decide (status < 600)

/-- `get_profile_info` (linkedin_api.py lines 18-30): GET the userinfo endpoint,
`raise_for_status`, parse JSON; every `RequestException` (network failure, error
status, body decode failure) is caught and turned into the empty dict `{}`. -/
def get_profile_info (r : HttpResult) : Json :=
  match r with
  | .exc _ => .obj []
  | .resp status body =>
    if raise_for_status_fails status then .obj []
    else
      match body with
      | none => .obj []
      | some j => j

/-- `get_profile_id` (linkedin_api.py lines 32-36): `profile.get('sub')`. The
`.get` attribute access raises if the parsed body was valid JSON but not an object. -/
def get_profile_id (r : HttpResult) : Except PyErr (Option Json) :=
  (get_profile_info r).pyGet "sub"

/-- Whether `create_text_post`'s guard `if not profile_id:` passes: the profile
lookup returned (no exception) and its `sub` value is truthy. -/
def profile_id_resolved (r : HttpResult) : Bool :=
  match get_profile_id r with
  | .ok pid => optJsonTruthy pid
  | .error _ => false

/-- Python `str()` of the scalar JSON values that can appear as a profile id, used
in the f-string `f"urn:li:person:{profile_id}"`; the rendering of containers is
abstracted (no theorem depends on it). -/
def py_str_of_json : Json → String
  | .str s => s
  | .num n => toString n
  | .bool b => if b then "True" else "False"
  | .null => "None"
  | .arr _ => "<list>"
  | .obj _ => "<dict>"

/-- The `post_data` payload of `create_text_post` (linkedin_api.py lines 45-59). -/
def post_payload (profile_id : Json) (text : String) : Json :=
  .obj [("author", .str ("urn:li:person:" ++ py_str_of_json profile_id)),
        ("lifecycleState", .str "PUBLISHED"),
        ("specificContent", .obj [("com.linkedin.ugc.ShareContent",
            .obj [("shareCommentary", .obj [("text", .str text)]),
                  ("shareMediaCategory", .str "NONE")])]),
        ("visibility", .obj [("com.linkedin.ugc.MemberNetworkVisibility", .str "PUBLIC")])]

/-- `create_text_post` (linkedin_api.py lines 38-73), returning the Python result
(the parsed response, or the exception that propagates) together with the trace of
network requests issued. The profile lookup GET always happens first (inside
`get_profile_id`); if no truthy profile id comes back, `ValueError` is raised and
no further request is made. Otherwise the payload is built and POSTed; the
`except RequestException` handler logs and re-raises, so call failures, error
statuses (`raise_for_status`) and body decode failures all propagate. -/
def create_text_post (profileHttp : HttpResult) (postHttp : HttpResult) (text : String) :
    Except PyErr Json × List NetCall :=
  let trace0 := [NetCall.get userinfo_url]
  match get_profile_id profileHttp with
  | .error e => (.error e, trace0)
  | .ok pid =>
    if !optJsonTruthy pid then
      (.error (.valueError "Could not retrieve profile ID"), trace0)
    else
      let payload := post_payload (pid.getD .null) text
      let trace := trace0 ++ [NetCall.post ugc_posts_url payload]
      match postHttp with
      | .exc m => (.error (.requestException m), trace)
      | .resp status body =>
        if raise_for_status_fails status then
          (.error (.requestException ("HTTP " ++ toString status)), trace)
        else
          match body with
          | none => (.error (.requestException "json decode error"), trace)
          | some j => (.ok j, trace)

/-- `test_connection` (linkedin_api.py lines 161-169): `bool(profile.get('sub'))`
on the profile lookup, with a `try/except Exception` around the body that turns any
exception (e.g. `.get` on a non-dict body) into `False`. Total: it never raises. -/
def test_connection (r : HttpResult) : Bool :=
  match (get_profile_info r).pyGet "sub" with
  | .error _ => false
  | .ok sub => optJsonTruthy sub

/-! ## `linkedin_bot.py`: posting, scheduling -/

/-- The `try` body of `create_and_post` (linkedin_bot.py lines 49-67), with its
network trace (the texts handed to `linkedin_api.create_text_post`). When
`generate_post` returned Python `None`, the slice `content[:100]` in the log call
raises `TypeError` before any publish attempt. Otherwise the publish oracle runs
and the result's truthiness (`if result:`) decides the boolean. -/
def create_and_post_body (genContent : Option String)
    (publish : String → Except PyErr Json) : Except PyErr Bool × List String :=
  match genContent with
  | none => (.error (.typeError "NoneType object is not subscriptable"), [])
  | some content =>
    match publish content with
    | .error e => (.error e, [content])
    | .ok result => (.ok result.truthy, [content])

/-- `create_and_post` (linkedin_bot.py lines 47-71): the `try` body wrapped in
`except Exception`, which logs and returns `False`. Total: never raises. -/
def create_and_post (genContent : Option String)
    (publish : String → Except PyErr Json) : Bool × List String :=
  match create_and_post_body genContent publish with
  | (.ok b, tr) => (b, tr)
  | (.error _, tr) => (false, tr)

/-- `post_now` (linkedin_bot.py lines 111-114): delegates directly to
`create_and_post` with the generated content. -/
def post_now (api : String → Except PyErr String) (tIdx kIdx cIdx fIdx : Nat)
    (publish : String → Except PyErr Json) (topicArg : Option String) :
    Bool × List String :=
  create_and_post (generate_post api tIdx kIdx cIdx fIdx topicArg) publish

/-- `scheduled_post` (linkedin_bot.py lines 73-81): runs `create_and_post()` with no
topic argument (Python default `None`). -/
def scheduled_post (api : String → Except PyErr String) (tIdx kIdx cIdx fIdx : Nat)
    (publish : String → Except PyErr Json) : Bool × List String :=
  create_and_post (generate_post api tIdx kIdx cIdx fIdx none) publish

/-- The callable registered with the scheduler. -/
inductive JobAction where
  | scheduled_post_action
deriving DecidableEq

/-- Running a registered job action against the effect oracles. -/
def run_job_action : JobAction → (String → Except PyErr String) → Nat → Nat → Nat → Nat →
    (String → Except PyErr Json) → Bool × List String
  | .scheduled_post_action, api, tIdx, kIdx, cIdx, fIdx, publish =>
    scheduled_post api tIdx kIdx cIdx fIdx publish

/-- One entry of the `schedule` library's job registry, as created by
`schedule.every().day.at(time_str).do(fn)`: the `at` time string, the timezone
handed to `at` (the library's `tz` parameter, `None` when not passed, in which case
the trigger time is interpreted in the system's local timezone), the daily interval,
and the registered callable. -/
structure Job where
  at_time : String
  at_time_zone : Option String
  daily : Bool
  action : JobAction
deriving DecidableEq

/-- The `schedule` module's global job registry. -/
structure SchedulerState where
  jobs : List Job
deriving DecidableEq

/-- `schedule.every().day.at(t).do(a)`: appends one daily job with no timezone
(the source passes no `tz` argument to `at`). -/
def every_day_at (st : SchedulerState) (t : String) (a : JobAction) : SchedulerState :=
  ⟨st.jobs ++ [{ at_time := t, at_time_zone := none, daily := true, action := a }]⟩

/-- `start_scheduler` (linkedin_bot.py lines 83-103) up to its blocking poll loop:
on connectivity failure it logs and returns `False` touching nothing; otherwise it
registers the single daily job at `Config.POST_TIME` and sets `is_running = True`.
Result: (registry after the call, `is_running` after the call, whether the call got
past the connectivity check rather than returning `False`). The subsequent
poll-sleep loop only fires registered jobs and is not needed by any claim. -/
def start_scheduler (connectivity_ok : Bool) (cfg : Config) (st : SchedulerState)
    (is_running : Bool) : SchedulerState × Bool × Bool :=
  if !connectivity_ok then (st, is_running, false)
  else (every_day_at st cfg.POST_TIME .scheduled_post_action, true, true)

/-- `schedule.next_run()`: `None` when the registry is empty, otherwise the minimum
of the jobs' next trigger instants. The instant each job would next fire at is an
abstract clock oracle `next_of` (the library computes it from `at_time` and the
current local time); instants are modelled as `Nat`. -/
def schedule_next_run (st : SchedulerState) (next_of : Job → Nat) : Option Nat :=
  match st.jobs with
  | [] => none
  | j :: rest => some ((rest.map next_of).foldl Nat.min (next_of j))

/-- `get_next_post_time` (linkedin_bot.py lines 116-121): format the next trigger
instant with `strftime("%Y-%m-%d %H:%M:%S")` (abstracted as `strftime`), or return
the sentinel when `schedule.next_run()` is `None`. A `datetime` is always truthy,
so `if next_run:` distinguishes exactly `None`. -/
def get_next_post_time (st : SchedulerState) (next_of : Job → Nat)
    (strftime : Nat → String) : String :=
  match schedule_next_run st next_of with
  | some t => strftime t
  | none => "No posts scheduled"

/-! ## General lemmas -/

theorem pyChoice_mem (l : List String) (i : Nat) (h : l ≠ []) : pyChoice l i ∈ l := by
  unfold pyChoice
  have hl : 0 < l.length := List.length_pos.mpr h
  have hm : i % l.length < l.length := Nat.mod_lt _ hl
  rw [List.getD_eq_getElem?_getD, List.getElem?_eq_getElem hm]
  exact List.getElem_mem _

theorem add_hashtags_of_mem (s : String) (h : '#' ∈ s.data) : add_hashtags s = s := by
  unfold add_hashtags
  rw [if_pos h]

/-! ## Claims -/

/-- The environment of the C1 scenario: the three LinkedIn keys present, the
generative key absent. -/
def c1_env : String → Option String := fun k =>
  if k = "LINKEDIN_CLIENT_ID" then some "a"
  else if k = "LINKEDIN_CLIENT_SECRET" then some "b"
  else if k = "LINKEDIN_ACCESS_TOKEN" then some "c"
  else none

/-- Claim C1. With only GEMINI_API_KEY missing, bot construction does raise, but not
the configuration error the claim describes: `ContentGenerator.__init__` reads
`Config.OPENAI_API_KEY`, which `Config` does not define, so an `AttributeError` about
`OPENAI_API_KEY` is raised before `Config.validate_config` ever runs. The second
conjunct shows the validation that the claim (and config.py itself) describes would
indeed report exactly `GEMINI_API_KEY` — the construction path just never reaches it. -/
theorem C1_bot_construction_attribute_error :
    LinkedInBot.init (Config.ofEnv c1_env) = .error (.attributeError "OPENAI_API_KEY") ∧
    (Config.ofEnv c1_env).validate_config =
      .error (.valueError "Missing required environment variables: GEMINI_API_KEY") := by
  constructor <;> rfl

/-- The configuration of the C3 counterexample: a non-default timezone. -/
def c3_cfg : Config :=
  { LINKEDIN_CLIENT_ID := some "a", LINKEDIN_CLIENT_SECRET := some "b",
    LINKEDIN_REDIRECT_URI := "http://localhost:8080/callback",
    LINKEDIN_ACCESS_TOKEN := some "c", GEMINI_API_KEY := some "d",
    POST_TIME := "09:00", TIMEZONE := "Asia/Kolkata" }

/-- Claim C3, counterexample. With `TIMEZONE = "Asia/Kolkata"` configured,
`start_scheduler` registers its one daily job with no timezone attached
(`schedule.every().day.at(Config.POST_TIME)` passes no `tz`), so the trigger time is
not interpreted in the configured timezone, contradicting the claim. -/
theorem C3_counterexample :
    c3_cfg.TIMEZONE = "Asia/Kolkata" ∧
    (start_scheduler true c3_cfg ⟨[]⟩ false).1.jobs =
      [{ at_time := "09:00", at_time_zone := none, daily := true,
         action := .scheduled_post_action }] ∧
    (start_scheduler true c3_cfg ⟨[]⟩ false).1.jobs.map Job.at_time_zone ≠
      [some c3_cfg.TIMEZONE] := by
  refine ⟨rfl, rfl, ?_⟩
  decide

/-- Claim C3, amended: `start_scheduler` runs the connectivity test first and on
failure returns `False` registering nothing and leaving the running flag untouched;
otherwise it registers exactly one recurring daily job — the post routine with no
topic — at the configured HH:MM with no timezone attached (interpreted by the
schedule library in the system's local timezone; the configured timezone only
appears in a log line), and sets the running flag. -/
theorem C3_start_scheduler_registration (cfg : Config) (st : SchedulerState)
    (running : Bool) :
    start_scheduler false cfg st running = (st, running, false) ∧
    start_scheduler true cfg st running =
      (⟨st.jobs ++ [{ at_time := cfg.POST_TIME, at_time_zone := none, daily := true,
                      action := .scheduled_post_action }]⟩, true, true) ∧
    (start_scheduler true cfg ⟨[]⟩ running).1.jobs.length = 1 ∧
    (∀ api tIdx kIdx cIdx fIdx publish,
      run_job_action .scheduled_post_action api tIdx kIdx cIdx fIdx publish =
        create_and_post (generate_post api tIdx kIdx cIdx fIdx none) publish) := by
  exact ⟨rfl, rfl, rfl, fun _ _ _ _ _ _ => rfl⟩

/-- Claim C5. `add_hashtags` returns any input containing a "#" unchanged (hence is
idempotent on it), and appends exactly the three canonical hashtags, once, to any
input without one; the result then contains a "#", so a second application changes
nothing. -/
theorem C5_add_hashtags_idempotent (post : String) :
    ('#' ∈ post.data →
      add_hashtags post = post ∧
      add_hashtags (add_hashtags post) = add_hashtags post) ∧
    ('#' ∉ post.data →
      add_hashtags post =
        post ++ "\n\n" ++ "#FrontendDevelopment #WebDevelopment #JavaScript" ∧
      add_hashtags (add_hashtags post) = add_hashtags post) := by
  have htags : String.intercalate " " (hashtags_list.take 3) =
      "#FrontendDevelopment #WebDevelopment #JavaScript" := rfl
  constructor
  · intro h
    have h1 : add_hashtags post = post := add_hashtags_of_mem post h
    exact ⟨h1, by rw [h1]; exact h1⟩
  · intro h
    have h1 : add_hashtags post =
        post ++ "\n\n" ++ "#FrontendDevelopment #WebDevelopment #JavaScript" := by
      unfold add_hashtags
      rw [if_neg h, htags]
    have hmem : '#' ∈ (add_hashtags post).data := by
      rw [h1, String.data_append]
      refine List.mem_append.mpr (Or.inr ?_)
      decide
    exact ⟨h1, add_hashtags_of_mem _ hmem⟩

/-- Witness for C5 at concrete inputs: "hello" has no "#" and gets the three
canonical hashtags appended; "hi #dev" is returned unchanged. -/
theorem C5_witness :
    add_hashtags "hello" =
      "hello" ++ "\n\n" ++ "#FrontendDevelopment #WebDevelopment #JavaScript" ∧
    add_hashtags "hi #dev" = "hi #dev" :=
  ⟨((C5_add_hashtags_idempotent "hello").2 (by decide)).1,
   ((C5_add_hashtags_idempotent "hi #dev").1 (by decide)).1⟩

/-- Claim C9. `get_next_post_time` returns the sentinel string exactly when the
scheduler registry holds no job, and otherwise formats the minimum of the jobs'
next trigger instants (what `schedule.next_run()` computes). -/
theorem C9_get_next_post_time (st : SchedulerState) (next_of : Job → Nat)
    (strftime : Nat → String) :
    (st.jobs = [] → get_next_post_time st next_of strftime = "No posts scheduled") ∧
    (∀ j rest, st.jobs = j :: rest →
      get_next_post_time st next_of strftime =
        strftime ((rest.map next_of).foldl Nat.min (next_of j))) := by
  cases st with
  | mk jobs =>
    constructor
    · intro h
      simp only at h
      subst h
      rfl
    · intro j rest h
      simp only at h
      subst h
      rfl

/-- Witness for C9: the empty registry yields the sentinel; a one-job registry with
next trigger instant 540 yields the formatted instant. -/
theorem C9_witness :
    get_next_post_time ⟨[]⟩ (fun _ => 540) (fun t => toString t) = "No posts scheduled" ∧
    get_next_post_time
        ⟨[{ at_time := "09:00", at_time_zone := none, daily := true,
            action := .scheduled_post_action }]⟩
        (fun _ => 540) (fun t => toString t) = "540" := by
  refine ⟨(C9_get_next_post_time ⟨[]⟩ _ _).1 rfl, ?_⟩
  have h := (C9_get_next_post_time
      ⟨[{ at_time := "09:00", at_time_zone := none, daily := true,
          action := .scheduled_post_action }]⟩
      (fun _ => 540) (fun t => toString t)).2 _ [] rfl
  exact h.trans rfl

/-- Claim C10. Whenever generation produced a string and the publish call returned a
parsed JSON value without raising, `create_and_post` returns exactly that value's
Python truthiness (and the publish was attempted: the text was handed to the
client); in particular an empty JSON object response yields `False` even though the
post was submitted. -/
theorem C10_create_and_post_truthiness (genContent : Option String) (content : String)
    (publish : String → Except PyErr Json) (j : Json)
    (hg : genContent = some content) (hp : publish content = .ok j) :
    (create_and_post genContent publish).1 = j.truthy ∧
    (create_and_post genContent publish).2 = [content] ∧
    (j = Json.obj [] → (create_and_post genContent publish).1 = false) := by
  subst hg
  refine ⟨?_, ?_, ?_⟩
  · simp [create_and_post, create_and_post_body, hp]
  · simp [create_and_post, create_and_post_body, hp]
  · intro hj
    subst hj
    simp [create_and_post, create_and_post_body, hp, Json.truthy]

/-- Witness for C10: a publish call that succeeds with the empty JSON object makes
`create_and_post` return `false`, though the text was submitted. -/
theorem C10_witness :
    (create_and_post (some "hello post") (fun _ => .ok (Json.obj []))).1 = false ∧
    (create_and_post (some "hello post") (fun _ => .ok (Json.obj []))).2 = ["hello post"] := by
  have h := C10_create_and_post_truthiness (some "hello post") "hello post"
      (fun _ => .ok (Json.obj [])) (Json.obj []) rfl rfl
  exact ⟨h.2.2 rfl, h.2.1⟩

/-- Claim C4. For every text, when the profile lookup yields no truthy profile id
(or raises), `create_text_post` raises and its network trace holds only the profile
lookup GET — the publish payload is never POSTed. The lookup GET itself is the
resolution attempt, not the publish call the claim is about. -/
theorem C4_create_text_post_no_publish (text : String) (profileHttp postHttp : HttpResult)
    (h : profile_id_resolved profileHttp = false) :
    (∃ e, (create_text_post profileHttp postHttp text).1 = .error e) ∧
    (create_text_post profileHttp postHttp text).2 = [NetCall.get userinfo_url] := by
  unfold profile_id_resolved at h
  unfold create_text_post
  cases hpid : get_profile_id profileHttp with
  | error e => exact ⟨⟨e, rfl⟩, rfl⟩
  | ok pid =>
    rw [hpid] at h
    have h2 : optJsonTruthy pid = false := h
    simp [h2]

/-- Witness for C4: a 401 response to the profile lookup resolves no profile id, so
`create_text_post` errors and only the userinfo GET appears in the trace. -/
theorem C4_witness :
    (∃ e, (create_text_post (.resp 401 (some (.obj [])))
        (.resp 201 (some (.obj [("id", .str "x")]))) "hello").1 = .error e) ∧
    (create_text_post (.resp 401 (some (.obj [])))
        (.resp 201 (some (.obj [("id", .str "x")]))) "hello").2 =
      [NetCall.get userinfo_url] :=
  C4_create_text_post_no_publish "hello" _ _ rfl

/-- Claim C6. `test_connection` is a total boolean function (the `except Exception`
makes it never raise); it returns `true` exactly when the profile endpoint answered
with a success status, a parseable JSON object body, and a truthy `sub` field; in
particular it returns `false` for any error status (`raise_for_status`), for an
empty or unparseable body, and for a request exception. -/
theorem C6_test_connection_spec (r : HttpResult) :
    (test_connection r = true ↔
      ∃ status body sub, r = .resp status (some body) ∧
        raise_for_status_fails status = false ∧
        body.pyGet "sub" = .ok (some sub) ∧ sub.truthy = true) ∧
    (∀ msg, test_connection (.exc msg) = false) ∧
    (∀ status body, raise_for_status_fails status = true →
      test_connection (.resp status body) = false) ∧
    (∀ status, test_connection (.resp status none) = false) := by
  refine ⟨⟨?_, ?_⟩, fun msg => rfl, ?_, ?_⟩
  · intro ht
    cases r with
    | exc m => simp [test_connection, get_profile_info, Json.pyGet, optJsonTruthy] at ht
    | resp status body =>
      cases hs : raise_for_status_fails status with
      | true => simp [test_connection, get_profile_info, hs, Json.pyGet, optJsonTruthy] at ht
      | false =>
        cases body with
        | none => simp [test_connection, get_profile_info, hs, Json.pyGet, optJsonTruthy] at ht
        | some j =>
          cases j with
          | null => simp [test_connection, get_profile_info, hs, Json.pyGet] at ht
          | bool b => simp [test_connection, get_profile_info, hs, Json.pyGet] at ht
          | str s => simp [test_connection, get_profile_info, hs, Json.pyGet] at ht
          | num n => simp [test_connection, get_profile_info, hs, Json.pyGet] at ht
          | arr l => simp [test_connection, get_profile_info, hs, Json.pyGet] at ht
          | obj fields =>
            simp only [test_connection, get_profile_info, hs, Bool.false_eq_true,
              if_false, Json.pyGet] at ht
            cases hl : fields.lookup "sub" with
            | none => rw [hl] at ht; simp [optJsonTruthy] at ht
            | some sub =>
              rw [hl] at ht
              exact ⟨status, .obj fields, sub, rfl, hs,
                by simp [Json.pyGet, hl], by simpa [optJsonTruthy] using ht⟩
  · rintro ⟨status, body, sub, rfl, h1, h2, h3⟩
    cases body with
    | obj fields =>
      simp only [Json.pyGet, Except.ok.injEq] at h2
      simp [test_connection, get_profile_info, h1, Json.pyGet, h2, optJsonTruthy, h3]
    | null => simp [Json.pyGet] at h2
    | bool b => simp [Json.pyGet] at h2
    | str s => simp [Json.pyGet] at h2
    | num n => simp [Json.pyGet] at h2
    | arr l => simp [Json.pyGet] at h2
  · intro status body hs
    cases body with
    | none => simp [test_connection, get_profile_info, hs, Json.pyGet, optJsonTruthy]
    | some j => simp [test_connection, get_profile_info, hs, Json.pyGet, optJsonTruthy]
  · intro status
    cases hs : raise_for_status_fails status with
    | true => simp [test_connection, get_profile_info, hs, Json.pyGet, optJsonTruthy]
    | false => simp [test_connection, get_profile_info, hs, Json.pyGet, optJsonTruthy]

/-- Witness for C6: truthy `sub` on a 200 response gives `true`; error status, empty
body and request exception each give `false`. -/
theorem C6_witness :
    test_connection (.resp 200 (some (.obj [("sub", .str "user123")]))) = true ∧
    test_connection (.resp 500 (some (.obj [("sub", .str "user123")]))) = false ∧
    test_connection (.resp 200 none) = false ∧
    test_connection (.exc "timeout") = false := by
  refine ⟨?_, ?_, ?_, ?_⟩
  · exact (C6_test_connection_spec (.resp 200 (some (.obj [("sub", .str "user123")])))).1.mpr
      ⟨200, .obj [("sub", .str "user123")], .str "user123", rfl, rfl, rfl, rfl⟩
  · exact (C6_test_connection_spec (.resp 500 (some (.obj [("sub", .str "user123")])))).2.2.1
      500 (some (.obj [("sub", .str "user123")])) rfl
  · exact (C6_test_connection_spec (.resp 200 none)).2.2.2 200
  · exact (C6_test_connection_spec (.exc "timeout")).2.1 "timeout"

/-- Claim C7, counterexample. A run in which the external generation call raises and
the publish call succeeds returns `true`, not `false`: the generation exception is
absorbed by the generator's fallback, so it does not force a `false` return as the
claim states. -/
theorem C7_counterexample :
    (post_now (fun _ => .error (.requestException "API down")) 0 0 0 0
      (fun _ => .ok (Json.obj [("id", Json.str "urn:li:share:42")]))
      (some "React.js")).1 = true := by
  rfl

/-- Claim C7, amended: `post_now` always returns a boolean and never raises past
`create_and_post`, whose handler turns any exception in its body — in particular one
raised by the publish call — into `False`; an exception in the external generation
call, by contrast, is caught inside `generate_post` and replaced by fallback text,
so the run can still return `true`. -/
theorem C7_post_now_never_raises (gen : Option String)
    (publish : String → Except PyErr Json) (api : String → Except PyErr String)
    (tIdx kIdx cIdx fIdx : Nat) (topicArg : Option String) :
    (∀ e, (create_and_post_body gen publish).1 = .error e →
      (create_and_post gen publish).1 = false) ∧
    (∀ b, (create_and_post_body gen publish).1 = .ok b →
      (create_and_post gen publish).1 = b) ∧
    (∀ content e2, gen = some content → publish content = .error e2 →
      (create_and_post gen publish).1 = false) ∧
    post_now api tIdx kIdx cIdx fIdx publish topicArg =
      create_and_post (generate_post api tIdx kIdx cIdx fIdx topicArg) publish := by
  refine ⟨?_, ?_, ?_, rfl⟩
  · intro e he
    cases gen with
    | none => rfl
    | some content =>
      cases hp : publish content with
      | error e2 => simp [create_and_post, create_and_post_body, hp]
      | ok j => simp [create_and_post_body, hp] at he
  · intro b hb
    cases gen with
    | none => simp [create_and_post_body] at hb
    | some content =>
      cases hp : publish content with
      | error e2 => simp [create_and_post_body, hp] at hb
      | ok j =>
        simp only [create_and_post_body, hp, Except.ok.injEq] at hb
        simp [create_and_post, create_and_post_body, hp, hb]
  · intro content e2 hg hp
    subst hg
    simp [create_and_post, create_and_post_body, hp]

/-- Witness for C7: a raising publish call yields `false`; a succeeding truthy
publish yields `true`. -/
theorem C7_witness :
    (create_and_post (some "text") (fun _ => .error (.requestException "HTTP 500"))).1 = false ∧
    (create_and_post (some "text") (fun _ => .ok (Json.str "id"))).1 = true := by
  constructor
  · exact (C7_post_now_never_raises (some "text")
      (fun _ => .error (.requestException "HTTP 500")) (fun _ => .ok "") 0 0 0 0
      none).2.2.1 "text" (.requestException "HTTP 500") rfl rfl
  · exact (C7_post_now_never_raises (some "text")
      (fun _ => .ok (Json.str "id")) (fun _ => .ok "") 0 0 0 0 none).2.1 true rfl

theorem fallback_contains_topic_hashtag (topic : String) (i : Nat) :
    strContains (generate_fallback_post topic i) ("#" ++ topic_hashtag_stem topic) := by
  unfold generate_fallback_post
  apply strContains_append_right
  rw [show ("\n\n#FrontendDevelopment #" : String) =
        "\n\n#FrontendDevelopment " ++ "#" from rfl,
      String.append_assoc "\n\n#FrontendDevelopment " "#" (topic_hashtag_stem topic)]
  exact strContains_middle _ _ _

theorem fallback_ne_empty (topic : String) (i : Nat) :
    generate_fallback_post topic i ≠ "" := by
  intro h
  have h0 := congrArg String.length h
  unfold generate_fallback_post at h0
  rw [String.length_append, String.length_append, String.length_append] at h0
  have h1 : 0 < (" #WebDevelopment #TechTips" : String).length := by decide
  have h2 : ("" : String).length = 0 := rfl
  omega

theorem create_and_post_trace (content : String) (publish : String → Except PyErr Json) :
    (create_and_post (some content) publish).2 = [content] := by
  cases hp : publish content with
  | error e => simp [create_and_post, create_and_post_body, hp]
  | ok j => simp [create_and_post, create_and_post_body, hp]

theorem generate_post_run_api_error (e : PyErr) (tIdx kIdx cIdx fIdx : Nat)
    (topic : String) (htop : topic.isEmpty = false) :
    (generate_post_run (fun _ => .error e) tIdx kIdx cIdx fIdx (some topic)).1 =
      some (generate_fallback_post topic fIdx) ∧
    (generate_post_run (fun _ => .error e) tIdx kIdx cIdx fIdx (some topic)).2.length = 1 := by
  have hmem : pyChoice post_templates kIdx ∈ post_templates :=
    pyChoice_mem _ _ (by decide)
  simp only [generate_post_run, htop, Bool.false_eq_true, if_false]
  set tmpl := pyChoice post_templates kIdx with htmpl
  simp only [post_templates, List.mem_cons, List.not_mem_nil, or_false] at hmem
  rcases hmem with h | h | h | h | h | h <;>
    simp [h, generate_tip_post, generate_tutorial_post, generate_trend_post,
      generate_comparison_post, generate_best_practice_post,
      generate_troubleshooting_post, api_call, Except.map]

set_option maxRecDepth 8192 in
/-- Claim C2, counterexample. With a raising generation call, `generate_post` for
topic "React.js" does return the fallback, but no choice of the canned line makes
the fallback contain "#ReactJS": Python `str.replace` keeps case, so the hashtag is
"#Reactjs". -/
theorem C2_counterexample :
    generate_post (fun _ => .error (.requestException "boom")) 0 0 0 0 (some "React.js") =
      some (generate_fallback_post "React.js" 0) ∧
    ¬ strContains (generate_fallback_post "React.js" 0) "#ReactJS" ∧
    ¬ strContains (generate_fallback_post "React.js" 1) "#ReactJS" ∧
    ¬ strContains (generate_fallback_post "React.js" 2) "#ReactJS" ∧
    ¬ strContains (generate_fallback_post "React.js" 3) "#ReactJS" ∧
    ¬ strContains (generate_fallback_post "React.js" 4) "#ReactJS" := by
  refine ⟨rfl, ?_, ?_, ?_, ?_, ?_⟩ <;> decide

/-- Claim C2, amended. When the external generation call raises, `generate_post`
returns the fallback text after exactly one external call (the failing one — the
fallback itself makes none); the fallback is always non-empty and contains the
hashtag "#" followed by the topic with dots and spaces removed, case kept — for
"React.js" that is "#Reactjs" — and `post_now("React.js")` still hands exactly that
fallback text to the publish client, returning `true` if the publish succeeds with
a truthy response. -/
theorem C2_fallback_behaviour (e : PyErr) (tIdx kIdx cIdx fIdx : Nat)
    (publish : String → Except PyErr Json) (topic : String) (i : Nat) :
    generate_post (fun _ => .error e) tIdx kIdx cIdx fIdx (some "React.js") =
      some (generate_fallback_post "React.js" fIdx) ∧
    (generate_post_run (fun _ => .error e) tIdx kIdx cIdx fIdx (some "React.js")).2.length = 1 ∧
    generate_fallback_post topic i ≠ "" ∧
    strContains (generate_fallback_post topic i) ("#" ++ topic_hashtag_stem topic) ∧
    topic_hashtag_stem "React.js" = "Reactjs" ∧
    strContains (generate_fallback_post "React.js" fIdx) "#Reactjs" ∧
    (post_now (fun _ => .error e) tIdx kIdx cIdx fIdx publish (some "React.js")).2 =
      [generate_fallback_post "React.js" fIdx] ∧
    (∀ j : Json, publish (generate_fallback_post "React.js" fIdx) = .ok j →
      j.truthy = true →
      (post_now (fun _ => .error e) tIdx kIdx cIdx fIdx publish (some "React.js")).1 = true) := by
  obtain ⟨hgen, htr⟩ := generate_post_run_api_error e tIdx kIdx cIdx fIdx "React.js" rfl
  have hg2 : generate_post (fun _ => .error e) tIdx kIdx cIdx fIdx (some "React.js") =
      some (generate_fallback_post "React.js" fIdx) := hgen
  have hstem : topic_hashtag_stem "React.js" = "Reactjs" := rfl
  refine ⟨hg2, htr, fallback_ne_empty topic i, fallback_contains_topic_hashtag topic i,
    hstem, ?_, ?_, ?_⟩
  · have h := fallback_contains_topic_hashtag "React.js" fIdx
    rwa [hstem] at h
  · unfold post_now
    rw [hg2]
    exact create_and_post_trace _ _
  · intro j hp htruthy
    unfold post_now
    rw [hg2]
    simp [create_and_post, create_and_post_body, hp, htruthy]

/-- Witness for C2 (amended) at a concrete run: raising generation, publish oracle
answering with a truthy JSON string, topic "React.js". -/
theorem C2_witness :
    generate_post (fun _ => .error (.requestException "down")) 0 3 0 2 (some "React.js") =
      some (generate_fallback_post "React.js" 2) ∧
    (post_now (fun _ => .error (.requestException "down")) 0 3 0 2
      (fun _ => .ok (Json.str "created")) (some "React.js")).1 = true := by
  have h := C2_fallback_behaviour (.requestException "down") 0 3 0 2
      (fun _ => .ok (Json.str "created")) "React.js" 0
  exact ⟨h.1, h.2.2.2.2.2.2.2 (Json.str "created") rfl rfl⟩

theorem related_topics_ne_nil (topic : String) :
    frontend_topics.filter (fun t => t != topic) ≠ [] := by
  intro hnil
  by_cases h1 : topic = "React.js"
  · have hv : "Vue.js" ∈ frontend_topics.filter (fun t => t != topic) := by
      subst h1
      decide
    rw [hnil] at hv
    exact List.not_mem_nil _ hv
  · have hv : "React.js" ∈ frontend_topics.filter (fun t => t != topic) := by
      refine List.mem_filter.mpr ⟨by decide, ?_⟩
      rw [bne_iff_ne]
      exact fun hh => h1 hh.symm
    rw [hnil] at hv
    exact List.not_mem_nil _ hv

set_option maxRecDepth 32768 in
/-- Claim C8. Every one of the six prompts embeds the requested topic verbatim and
states the documented constraints: the sentence count ("2-3" for the tip kind, "3-4"
for the others), the hashtag requirement, and the opening emoji+label line; the
comparison prompt moreover embeds a second topic, drawn from the fixed topic list
and different from the requested topic. -/
theorem C8_prompt_structure (topic : String) (cIdx : Nat) :
    (strContains (tip_prompt topic) topic ∧
      strContains (tip_prompt topic) "Be 2-3 sentences long" ∧
      strContains (tip_prompt topic) "Include relevant hashtags" ∧
      strContains (tip_prompt topic) "Start with \"💡 Frontend Tip:\" or similar") ∧
    (strContains (tutorial_prompt topic) topic ∧
      strContains (tutorial_prompt topic) "Be 3-4 sentences long" ∧
      strContains (tutorial_prompt topic) "Include relevant hashtags" ∧
      strContains (tutorial_prompt topic) "Start with \"🚀 Quick Tutorial:\" or similar") ∧
    (strContains (trend_prompt topic) topic ∧
      strContains (trend_prompt topic) "Be 3-4 sentences long" ∧
      strContains (trend_prompt topic) "Include relevant hashtags" ∧
      strContains (trend_prompt topic) "Start with \"📈 Trend Watch:\" or similar") ∧
    (strContains (best_practice_prompt topic) topic ∧
      strContains (best_practice_prompt topic) "Be 3-4 sentences long" ∧
      strContains (best_practice_prompt topic) "Include relevant hashtags" ∧
      strContains (best_practice_prompt topic) "Start with \"✨ Best Practice:\" or similar") ∧
    (strContains (troubleshooting_prompt topic) topic ∧
      strContains (troubleshooting_prompt topic) "Be 3-4 sentences long" ∧
      strContains (troubleshooting_prompt topic) "Include relevant hashtags" ∧
      strContains (troubleshooting_prompt topic) "Start with \"🔧 Troubleshooting:\" or similar") ∧
    (strContains
        (comparison_prompt topic (pyChoice (frontend_topics.filter (fun t => t != topic)) cIdx))
        topic ∧
      strContains
        (comparison_prompt topic (pyChoice (frontend_topics.filter (fun t => t != topic)) cIdx))
        (pyChoice (frontend_topics.filter (fun t => t != topic)) cIdx) ∧
      strContains
        (comparison_prompt topic (pyChoice (frontend_topics.filter (fun t => t != topic)) cIdx))
        "Be 3-4 sentences long" ∧
      strContains
        (comparison_prompt topic (pyChoice (frontend_topics.filter (fun t => t != topic)) cIdx))
        "Include relevant hashtags" ∧
      strContains
        (comparison_prompt topic (pyChoice (frontend_topics.filter (fun t => t != topic)) cIdx))
        "Start with \"⚖️ Comparison:\" or similar" ∧
      pyChoice (frontend_topics.filter (fun t => t != topic)) cIdx ∈ frontend_topics ∧
      pyChoice (frontend_topics.filter (fun t => t != topic)) cIdx ≠ topic) := by
  have hc := List.mem_filter.mp (pyChoice_mem _ cIdx (related_topics_ne_nil topic))
  refine ⟨⟨?_, ?_, ?_, ?_⟩, ⟨?_, ?_, ?_, ?_⟩, ⟨?_, ?_, ?_, ?_⟩, ⟨?_, ?_, ?_, ?_⟩,
    ⟨?_, ?_, ?_, ?_⟩, ?_, ?_, ?_, ?_, ?_, hc.1, ?_⟩
  · unfold tip_prompt; exact strContains_middle _ _ _
  · unfold tip_prompt; exact strContains_append_right _ _ _ (by decide)
  · unfold tip_prompt; exact strContains_append_right _ _ _ (by decide)
  · unfold tip_prompt; exact strContains_append_right _ _ _ (by decide)
  · unfold tutorial_prompt; exact strContains_middle _ _ _
  · unfold tutorial_prompt; exact strContains_append_right _ _ _ (by decide)
  · unfold tutorial_prompt; exact strContains_append_right _ _ _ (by decide)
  · unfold tutorial_prompt; exact strContains_append_right _ _ _ (by decide)
  · unfold trend_prompt; exact strContains_middle _ _ _
  · unfold trend_prompt; exact strContains_append_right _ _ _ (by decide)
  · unfold trend_prompt; exact strContains_append_right _ _ _ (by decide)
  · unfold trend_prompt; exact strContains_append_right _ _ _ (by decide)
  · unfold best_practice_prompt; exact strContains_middle _ _ _
  · unfold best_practice_prompt; exact strContains_append_right _ _ _ (by decide)
  · unfold best_practice_prompt; exact strContains_append_right _ _ _ (by decide)
  · unfold best_practice_prompt; exact strContains_append_right _ _ _ (by decide)
  · unfold troubleshooting_prompt; exact strContains_middle _ _ _
  · unfold troubleshooting_prompt; exact strContains_append_right _ _ _ (by decide)
  · unfold troubleshooting_prompt; exact strContains_append_right _ _ _ (by decide)
  · unfold troubleshooting_prompt; exact strContains_append_right _ _ _ (by decide)
  · unfold comparison_prompt
    exact strContains_append_left _ _ _ (strContains_append_left _ _ _
      (strContains_append_left _ _ _
        (strContains_append_right _ _ _ (strContains_self topic))))
  · unfold comparison_prompt
    exact strContains_append_left _ _ _
      (strContains_append_right _ _ _ (strContains_self _))
  · unfold comparison_prompt; exact strContains_append_right _ _ _ (by decide)
  · unfold comparison_prompt; exact strContains_append_right _ _ _ (by decide)
  · unfold comparison_prompt; exact strContains_append_right _ _ _ (by decide)
  · have h2 := hc.2
    simp only [bne_iff_ne, ne_eq] at h2
    exact h2
